import Mathlib

/-!
Verification of the expression IR node type of the code-generation module
(`include/ceres/codegen/internal/expression.h`).

The header file declares the `Expression` class; its inline members
(`HasValidLhs`, `set_lhs_id`, `lhs_id`, the default constructor's member
initializers, `operator!=`) are embedded directly from the header.  The
out-of-line member definitions (the factories, the comparison relations,
`Replace`, `MakeNop`, `IsArithmeticExpression`,
`IsCompileTimeConstantAndEqualTo`, `DirectlyDependsOn`, `operator==`) live in
a translation unit that is not part of the given sources; those are modelled
from the specification, faithful to its words, and are marked as such in
their doc comments.

C++ `double` literal values are modelled as rationals (`Rat`): every literal
value the claims mention (0, 1, 3.1415, ...) is represented exactly, and the
C++ `==` on such values coincides with rational equality.
-/

namespace Ceres

/-- Embedded from the header: `using ExpressionId = int`. -/
abbrev ExpressionId := Int

/-- Embedded from the header: `static constexpr ExpressionId kInvalidExpressionId = -1`. -/
def kInvalidExpressionId : ExpressionId := -1

/-- Embedded from the header: `enum class ExpressionType`, 14 tags. -/
inductive ExpressionType where
  | COMPILE_TIME_CONSTANT
  | INPUT_ASSIGNMENT
  | OUTPUT_ASSIGNMENT
  | ASSIGNMENT
  | BINARY_ARITHMETIC
  | UNARY_ARITHMETIC
  | BINARY_COMPARISON
  | LOGICAL_NEGATION
  | FUNCTION_CALL
  | IF
  | ELSE
  | ENDIF
  | COMMENT
  | NOP
  deriving DecidableEq, Repr

/-- Embedded from the header: `enum class ExpressionReturnType` with
SCALAR, BOOLEAN, VOID. -/
inductive ExpressionReturnType where
  | SCALAR
  | BOOLEAN
  | VOID
  deriving DecidableEq, Repr

/-- Embedded from the header's private members of `class Expression`:
type, return type, lhs id, arguments, name, literal value. -/
structure Expression where
  type : ExpressionType
  return_type : ExpressionReturnType
  lhs_id : ExpressionId
  arguments : List ExpressionId
  name : String
  value : Rat
  deriving DecidableEq, Repr

namespace Expression

/-- Embedded from the header: `Expression() = default` together with the
member initializers `type_ = NOP`, `return_type_ = VOID`,
`lhs_id_ = kInvalidExpressionId`, `arguments_` empty, `name_` empty,
`value_ = 0`. -/
def defaultExpr : Expression :=
  ⟨ExpressionType.NOP, ExpressionReturnType.VOID, kInvalidExpressionId, [], "", 0⟩

/-- Embedded from the header (inline):
`bool HasValidLhs() const { return lhs_id_ != kInvalidExpressionId; }`. -/
def HasValidLhs (e : Expression) : Bool :=
  decide (e.lhs_id ≠ kInvalidExpressionId)

/-- Embedded from the header (inline):
`void set_lhs_id(ExpressionId new_lhs_id) { lhs_id_ = new_lhs_id; }` —
only the lhs id field changes. -/
def set_lhs_id (e : Expression) (new_lhs_id : ExpressionId) : Expression :=
  ⟨e.type, e.return_type, new_lhs_id, e.arguments, e.name, e.value⟩

/-- Modelled from the spec: the out-of-line definition of
`Expression::IsArithmeticExpression` is missing from the sources.  Per the
spec a node "defines a value" exactly when its type is one of the nine
value-defining types; If/Else/EndIf are control markers and Comment/Nop are
neither. -/
def IsArithmeticExpression (e : Expression) : Bool :=
  match e.type with
  | ExpressionType.COMPILE_TIME_CONSTANT => true
  | ExpressionType.INPUT_ASSIGNMENT => true
  | ExpressionType.OUTPUT_ASSIGNMENT => true
  | ExpressionType.ASSIGNMENT => true
  | ExpressionType.BINARY_ARITHMETIC => true
  | ExpressionType.UNARY_ARITHMETIC => true
  | ExpressionType.BINARY_COMPARISON => true
  | ExpressionType.LOGICAL_NEGATION => true
  | ExpressionType.FUNCTION_CALL => true
  | _ => false

/-- Modelled from the spec: the out-of-line definition of
`Expression::IsControlExpression` is missing from the sources.  Per the spec
the control markers are If, Else and EndIf. -/
def IsControlExpression (e : Expression) : Bool :=
  match e.type with
  | ExpressionType.IF => true
  | ExpressionType.ELSE => true
  | ExpressionType.ENDIF => true
  | _ => false

/-- Modelled from the spec: the out-of-line definition of
`Expression::IsCompileTimeConstantAndEqualTo` is missing from the sources.
Per the spec it is true iff the type is CompileTimeConstant and the literal
value equals the argument by exact comparison (no tolerance). -/
def IsCompileTimeConstantAndEqualTo (e : Expression) (constant : Rat) : Bool :=
  decide (e.type = ExpressionType.COMPILE_TIME_CONSTANT) && decide (e.value = constant)

/-- Modelled from the spec: the out-of-line definition of
`Expression::IsSemanticallyEquivalentTo` is missing from the sources.  Per
the spec it is true iff type, return-type, name, literal value and operand
count match; the lhs id and the operand identities are ignored. -/
def IsSemanticallyEquivalentTo (a b : Expression) : Bool :=
  decide (a.type = b.type) && decide (a.return_type = b.return_type) &&
  decide (a.name = b.name) && decide (a.value = b.value) &&
  decide (a.arguments.length = b.arguments.length)

/-- Modelled from the spec: the out-of-line definition of
`Expression::IsReplaceableBy` is missing from the sources.  Per the spec
replaceability ties to true operand-identity matching (the full ordered
operand list) plus matching type/return-type/name/value — everything except
the lhs id — and is strictly stronger than semantic equivalence. -/
def IsReplaceableBy (a b : Expression) : Bool :=
  decide (a.type = b.type) && decide (a.return_type = b.return_type) &&
  decide (a.name = b.name) && decide (a.value = b.value) &&
  decide (a.arguments = b.arguments)

/-- Modelled from the spec: the out-of-line definition of
`Expression::operator==` is missing from the sources.  Per the spec
structural equality compares all members: type, return-type, lhs id, full
ordered operand list, name and literal value. -/
def opEq (a b : Expression) : Bool :=
  decide (a.type = b.type) && decide (a.return_type = b.return_type) &&
  decide (a.lhs_id = b.lhs_id) && decide (a.arguments = b.arguments) &&
  decide (a.name = b.name) && decide (a.value = b.value)

/-- Embedded from the header (inline): `operator!=` is the negation of
`operator==`. -/
def opNe (a b : Expression) : Bool :=
  !(opEq a b)

/-- Modelled from the spec: the out-of-line definition of
`Expression::DirectlyDependsOn` is missing from the sources.  Per the spec
it is true iff the given id is in the operand list. -/
def DirectlyDependsOn (e : Expression) (other : ExpressionId) : Bool :=
  decide (other ∈ e.arguments)

/-- Modelled from the spec: the out-of-line definition of
`Expression::Replace` is missing from the sources.  Per the spec it
overwrites type, return-type, operands, name and value from `other`, leaving
this node's own lhs id untouched. -/
def Replace (e other : Expression) : Expression :=
  ⟨other.type, other.return_type, e.lhs_id, other.arguments, other.name, other.value⟩

/-- Modelled from the spec: the out-of-line definition of
`Expression::MakeNop` is missing from the sources.  Per the spec it sets the
type to Nop and the return type to None and clears the operands, the name
and the value; and after the call the node has no valid lhs, so the lhs id
is reset to the invalid sentinel (consistent with the header comment that
NOP nodes have `lhs_id = invalid`). -/
def MakeNop (_e : Expression) : Expression :=
  ⟨ExpressionType.NOP, ExpressionReturnType.VOID, kInvalidExpressionId, [], "", 0⟩

/-- Modelled from the spec: the out-of-line definition of
`Expression::CreateCompileTimeConstant` is missing from the sources.  The
factory fixes type CompileTimeConstant and return type Scalar; per the spec
id assignment is the owning graph's job, so the lhs id is the invalid
sentinel. -/
def CreateCompileTimeConstant (v : Rat) : Expression :=
  ⟨ExpressionType.COMPILE_TIME_CONSTANT, ExpressionReturnType.SCALAR,
   kInvalidExpressionId, [], "", v⟩

/-- Modelled from the spec: `Expression::CreateInputAssignment` is missing
from the sources.  Input binding: type InputAssignment, return type Scalar,
the name is the bound user variable. -/
def CreateInputAssignment (name : String) : Expression :=
  ⟨ExpressionType.INPUT_ASSIGNMENT, ExpressionReturnType.SCALAR,
   kInvalidExpressionId, [], name, 0⟩

/-- Modelled from the spec: `Expression::CreateOutputAssignment` is missing
from the sources.  Output binding: type OutputAssignment, return type
Scalar, the single operand is the stored value's id, the name is the output
variable. -/
def CreateOutputAssignment (v : ExpressionId) (name : String) : Expression :=
  ⟨ExpressionType.OUTPUT_ASSIGNMENT, ExpressionReturnType.SCALAR,
   kInvalidExpressionId, [v], name, 0⟩

/-- Modelled from the spec: `Expression::CreateAssignment` is missing from
the sources.  Plain assignment `v_dst = v_src`: type Assignment, return type
Scalar, the destination is the lhs id and the source the single operand. -/
def CreateAssignment (dst src : ExpressionId) : Expression :=
  ⟨ExpressionType.ASSIGNMENT, ExpressionReturnType.SCALAR, dst, [src], "", 0⟩

/-- Modelled from the spec: `Expression::CreateBinaryArithmetic` is missing
from the sources.  Per the spec's table, binary arithmetic over ids l,r with
operator symbol `op` yields type BinaryArithmetic, return type Scalar,
operands [l, r] in that order and name `op`. -/
def CreateBinaryArithmetic (op : String) (l r : ExpressionId) : Expression :=
  ⟨ExpressionType.BINARY_ARITHMETIC, ExpressionReturnType.SCALAR,
   kInvalidExpressionId, [l, r], op, 0⟩

/-- Modelled from the spec: `Expression::CreateUnaryArithmetic` is missing
from the sources.  Type UnaryArithmetic, return type Scalar, one operand,
name is the operator symbol. -/
def CreateUnaryArithmetic (op : String) (v : ExpressionId) : Expression :=
  ⟨ExpressionType.UNARY_ARITHMETIC, ExpressionReturnType.SCALAR,
   kInvalidExpressionId, [v], op, 0⟩

/-- Modelled from the spec: `Expression::CreateBinaryCompare` is missing
from the sources.  Type BinaryComparison, return type Boolean (the only
expressions returning a bool, per the header's enum comment), operands
[l, r], name is the comparison symbol. -/
def CreateBinaryCompare (name : String) (l r : ExpressionId) : Expression :=
  ⟨ExpressionType.BINARY_COMPARISON, ExpressionReturnType.BOOLEAN,
   kInvalidExpressionId, [l, r], name, 0⟩

/-- Modelled from the spec: `Expression::CreateLogicalNegation` is missing
from the sources.  Type LogicalNegation, return type Boolean, one operand. -/
def CreateLogicalNegation (v : ExpressionId) : Expression :=
  ⟨ExpressionType.LOGICAL_NEGATION, ExpressionReturnType.BOOLEAN,
   kInvalidExpressionId, [v], "", 0⟩

/-- Modelled from the spec: `Expression::CreateScalarFunctionCall` is
missing from the sources.  Scalar-returning call: type FunctionCall, return
type Scalar, the operands are the parameter ids, the name is the function
name. -/
def CreateScalarFunctionCall (name : String) (params : List ExpressionId) : Expression :=
  ⟨ExpressionType.FUNCTION_CALL, ExpressionReturnType.SCALAR,
   kInvalidExpressionId, params, name, 0⟩

/-- Modelled from the spec: `Expression::CreateLogicalFunctionCall` is
missing from the sources.  Boolean-returning call: type FunctionCall, return
type Boolean, the operands are the parameter ids, the name is the function
name. -/
def CreateLogicalFunctionCall (name : String) (params : List ExpressionId) : Expression :=
  ⟨ExpressionType.FUNCTION_CALL, ExpressionReturnType.BOOLEAN,
   kInvalidExpressionId, params, name, 0⟩

/-- Modelled from the spec: `Expression::CreateIf` is missing from the
sources.  Control marker: type If, return type Void, the single operand is
the condition's id; control expressions do not define a variable. -/
def CreateIf (condition : ExpressionId) : Expression :=
  ⟨ExpressionType.IF, ExpressionReturnType.VOID,
   kInvalidExpressionId, [condition], "", 0⟩

/-- Modelled from the spec: `Expression::CreateElse` is missing from the
sources.  Control marker: type Else, return type Void, no payload. -/
def CreateElse : Expression :=
  ⟨ExpressionType.ELSE, ExpressionReturnType.VOID, kInvalidExpressionId, [], "", 0⟩

/-- Modelled from the spec: `Expression::CreateEndIf` is missing from the
sources.  Control marker: type EndIf, return type Void, no payload. -/
def CreateEndIf : Expression :=
  ⟨ExpressionType.ENDIF, ExpressionReturnType.VOID, kInvalidExpressionId, [], "", 0⟩

/-- Modelled from the spec: `Expression::CreateComment` is missing from the
sources.  Type Comment, return type Void, the name holds the comment text;
comments define no variable. -/
def CreateComment (comment : String) : Expression :=
  ⟨ExpressionType.COMMENT, ExpressionReturnType.VOID, kInvalidExpressionId, [], comment, 0⟩

end Expression

/-- One call to one of the fourteen `Expression::CreateXX` factories,
together with its arguments.  Quantifying over this type quantifies over
every expression a factory can produce. -/
inductive FactoryCall where
  | compileTimeConstant (v : Rat)
  | inputAssignment (name : String)
  | outputAssignment (v : ExpressionId) (name : String)
  | assignment (dst src : ExpressionId)
  | binaryArithmetic (op : String) (l r : ExpressionId)
  | unaryArithmetic (op : String) (v : ExpressionId)
  | binaryCompare (name : String) (l r : ExpressionId)
  | logicalNegation (v : ExpressionId)
  | scalarFunctionCall (name : String) (params : List ExpressionId)
  | logicalFunctionCall (name : String) (params : List ExpressionId)
  | ifMarker (condition : ExpressionId)
  | elseMarker
  | endIfMarker
  | commentMarker (comment : String)

/-- The expression a factory call produces. -/
def FactoryCall.apply : FactoryCall → Expression
  | .compileTimeConstant v => Expression.CreateCompileTimeConstant v
  | .inputAssignment name => Expression.CreateInputAssignment name
  | .outputAssignment v name => Expression.CreateOutputAssignment v name
  | .assignment dst src => Expression.CreateAssignment dst src
  | .binaryArithmetic op l r => Expression.CreateBinaryArithmetic op l r
  | .unaryArithmetic op v => Expression.CreateUnaryArithmetic op v
  | .binaryCompare name l r => Expression.CreateBinaryCompare name l r
  | .logicalNegation v => Expression.CreateLogicalNegation v
  | .scalarFunctionCall name params => Expression.CreateScalarFunctionCall name params
  | .logicalFunctionCall name params => Expression.CreateLogicalFunctionCall name params
  | .ifMarker condition => Expression.CreateIf condition
  | .elseMarker => Expression.CreateElse
  | .endIfMarker => Expression.CreateEndIf
  | .commentMarker comment => Expression.CreateComment comment

/-- Which of the fourteen factories a call invokes, forgetting the
arguments. -/
inductive FactoryKind where
  | compileTimeConstant
  | inputAssignment
  | outputAssignment
  | assignment
  | binaryArithmetic
  | unaryArithmetic
  | binaryCompare
  | logicalNegation
  | scalarFunctionCall
  | logicalFunctionCall
  | ifMarker
  | elseMarker
  | endIfMarker
  | commentMarker
  deriving DecidableEq, Repr

/-- Forgets a factory call's arguments, keeping only which factory it is. -/
def FactoryCall.kind : FactoryCall → FactoryKind
  | .compileTimeConstant _ => .compileTimeConstant
  | .inputAssignment _ => .inputAssignment
  | .outputAssignment _ _ => .outputAssignment
  | .assignment _ _ => .assignment
  | .binaryArithmetic _ _ _ => .binaryArithmetic
  | .unaryArithmetic _ _ => .unaryArithmetic
  | .binaryCompare _ _ _ => .binaryCompare
  | .logicalNegation _ => .logicalNegation
  | .scalarFunctionCall _ _ => .scalarFunctionCall
  | .logicalFunctionCall _ _ => .logicalFunctionCall
  | .ifMarker _ => .ifMarker
  | .elseMarker => .elseMarker
  | .endIfMarker => .endIfMarker
  | .commentMarker _ => .commentMarker

/-- The expression type each factory fixes, per the spec's table: a function
of the factory alone, not of its arguments. -/
def FactoryKind.fixedType : FactoryKind → ExpressionType
  | .compileTimeConstant => .COMPILE_TIME_CONSTANT
  | .inputAssignment => .INPUT_ASSIGNMENT
  | .outputAssignment => .OUTPUT_ASSIGNMENT
  | .assignment => .ASSIGNMENT
  | .binaryArithmetic => .BINARY_ARITHMETIC
  | .unaryArithmetic => .UNARY_ARITHMETIC
  | .binaryCompare => .BINARY_COMPARISON
  | .logicalNegation => .LOGICAL_NEGATION
  | .scalarFunctionCall => .FUNCTION_CALL
  | .logicalFunctionCall => .FUNCTION_CALL
  | .ifMarker => .IF
  | .elseMarker => .ELSE
  | .endIfMarker => .ENDIF
  | .commentMarker => .COMMENT

/-- The return type each factory fixes, per the spec's table: a function of
the factory alone, not of its arguments. -/
def FactoryKind.fixedReturnType : FactoryKind → ExpressionReturnType
  | .compileTimeConstant => .SCALAR
  | .inputAssignment => .SCALAR
  | .outputAssignment => .SCALAR
  | .assignment => .SCALAR
  | .binaryArithmetic => .SCALAR
  | .unaryArithmetic => .SCALAR
  | .binaryCompare => .BOOLEAN
  | .logicalNegation => .BOOLEAN
  | .scalarFunctionCall => .SCALAR
  | .logicalFunctionCall => .BOOLEAN
  | .ifMarker => .VOID
  | .elseMarker => .VOID
  | .endIfMarker => .VOID
  | .commentMarker => .VOID

/-- Modelled from the spec: the validation pass the spec recommends for the
control-flow linearization protocol is not part of the given sources.  It
tracks a stack over the node sequence — push on If, pop on EndIf, other
nodes leave the stack unchanged — and `none` reports an underflow (a pop on
an empty stack). -/
def runStack : List Expression → List Expression → Option (List Expression)
  | [], st => some st
  | e :: rest, st =>
    match e.type with
    | ExpressionType.IF => runStack rest (e :: st)
    | ExpressionType.ENDIF =>
      match st with
      | [] => none
      | _ :: st2 => runStack rest st2
    | _ => runStack rest st

/-- Modelled from the spec: a properly nested sequence of If/Else/EndIf
factory calls.  Each Else/EndIf closes the most recently opened unclosed If
(LIFO nesting); a region may omit its Else; properly nested regions
concatenate. -/
inductive ProperlyNested : List Expression → Prop where
  | nil : ProperlyNested []
  | append (s t : List Expression) :
      ProperlyNested s → ProperlyNested t → ProperlyNested (s ++ t)
  | ifEnd (c : ExpressionId) (s : List Expression) :
      ProperlyNested s →
      ProperlyNested (Expression.CreateIf c :: s ++ [Expression.CreateEndIf])
  | ifElseEnd (c : ExpressionId) (s t : List Expression) :
      ProperlyNested s → ProperlyNested t →
      ProperlyNested (Expression.CreateIf c :: s ++
        Expression.CreateElse :: t ++ [Expression.CreateEndIf])

theorem runStack_append (s t : List Expression) :
    ∀ st, runStack (s ++ t) st = (runStack s st).bind (runStack t) := by
  induction s with
  | nil => intro st; rfl
  | cons e rest ih =>
    intro st
    simp only [List.cons_append, runStack]
    cases h : e.type <;>
      first
        | exact ih st
        | exact ih (e :: st)
        | (cases st with
            | nil => rfl
            | cons a st2 => exact ih st2)

theorem ProperlyNested.runStack_eq {s : List Expression} (h : ProperlyNested s) :
    ∀ st, runStack s st = some st := by
  induction h with
  | nil => intro st; rfl
  | append s t _ _ ih1 ih2 =>
    intro st
    rw [runStack_append, ih1 st]
    exact ih2 st
  | ifEnd c s _ ih =>
    intro st
    change runStack (s ++ [Expression.CreateEndIf]) (Expression.CreateIf c :: st) = some st
    rw [runStack_append, ih]
    rfl
  | ifElseEnd c s t _ _ ih1 ih2 =>
    intro st
    change runStack ((s ++ Expression.CreateElse :: t) ++ [Expression.CreateEndIf])
      (Expression.CreateIf c :: st) = some st
    rw [runStack_append, runStack_append, ih1]
    change (runStack t (Expression.CreateIf c :: st)).bind
      (runStack [Expression.CreateEndIf]) = some st
    rw [ih2]
    rfl

/-- C1: IsReplaceableBy is strictly stronger than semantic equivalence: for
every pair of expressions a,b, if a.IsReplaceableBy(b) then
a.IsSemanticallyEquivalentTo(b); IsReplaceableBy holds between an expression
and a structurally identical copy of itself; and for the pair
CreateBinaryArithmetic("+",0,1) versus CreateBinaryArithmetic("+",0,2)
semantic equivalence holds while replaceability does not. -/
theorem replaceability_refines_semantic_equivalence :
    (∀ a b : Expression, a.IsReplaceableBy b = true →
      a.IsSemanticallyEquivalentTo b = true) ∧
    (∀ a : Expression, a.IsReplaceableBy a = true) ∧
    (Expression.CreateBinaryArithmetic "+" 0 1).IsSemanticallyEquivalentTo
      (Expression.CreateBinaryArithmetic "+" 0 2) = true ∧
    (Expression.CreateBinaryArithmetic "+" 0 1).IsReplaceableBy
      (Expression.CreateBinaryArithmetic "+" 0 2) = false := by
  refine ⟨?_, ?_, by decide, by decide⟩
  · intro a b h
    simp only [Expression.IsReplaceableBy, Bool.and_eq_true, decide_eq_true_eq] at h
    obtain ⟨⟨⟨⟨ht, hr⟩, hn⟩, hv⟩, ha⟩ := h
    simp only [Expression.IsSemanticallyEquivalentTo, Bool.and_eq_true, decide_eq_true_eq]
    exact ⟨⟨⟨⟨ht, hr⟩, hn⟩, hv⟩, by rw [ha]⟩
  · intro a
    simp [Expression.IsReplaceableBy]

/-- Witness for C1: the replaceability-to-equivalence implication applied at
a concrete pair, with the hypothesis discharged by evaluation. -/
theorem replaceability_refines_semantic_equivalence_witness :
    (Expression.CreateBinaryArithmetic "+" 0 1).IsSemanticallyEquivalentTo
      (Expression.CreateBinaryArithmetic "+" 0 1) = true :=
  replaceability_refines_semantic_equivalence.1 _ _ (by decide)

/-- C2: for every two expressions a,b, a.IsSemanticallyEquivalentTo(b)
returns true if and only if their type, return-type, name, literal value and
number of operands are all equal — the lhs ids and the identities of the
operand ids are ignored (only the operand count is compared). -/
theorem semantic_equivalence_characterization :
    ∀ a b : Expression,
      a.IsSemanticallyEquivalentTo b = true ↔
        (a.type = b.type ∧ a.return_type = b.return_type ∧ a.name = b.name ∧
          a.value = b.value ∧ a.arguments.length = b.arguments.length) := by
  intro a b
  simp [Expression.IsSemanticallyEquivalentTo, Bool.and_eq_true,
    decide_eq_true_eq, and_assoc]

/-- C3: every factory yields, for all arguments, an expression whose type
and return type are fixed by the factory alone; in particular
CreateBinaryArithmetic("+", a, b) yields type BINARY_ARITHMETIC, return type
SCALAR, operand list [a, b] in that order, and name "+". -/
theorem factory_fixes_type_and_return_type :
    (∀ c : FactoryCall,
      (FactoryCall.apply c).type = FactoryKind.fixedType (FactoryCall.kind c) ∧
      (FactoryCall.apply c).return_type =
        FactoryKind.fixedReturnType (FactoryCall.kind c)) ∧
    (∀ a b : ExpressionId,
      (Expression.CreateBinaryArithmetic "+" a b).type =
        ExpressionType.BINARY_ARITHMETIC ∧
      (Expression.CreateBinaryArithmetic "+" a b).return_type =
        ExpressionReturnType.SCALAR ∧
      (Expression.CreateBinaryArithmetic "+" a b).arguments = [a, b] ∧
      (Expression.CreateBinaryArithmetic "+" a b).name = "+") := by
  constructor
  · intro c
    cases c <;> exact ⟨rfl, rfl⟩
  · intro a b
    exact ⟨rfl, rfl, rfl, rfl⟩

/-- C4: for every expression e, calling MakeNop twice leaves e in the same
state as calling it once, and after MakeNop the expression is not
arithmetic, has no valid lhs, and depends on no id. -/
theorem makeNop_idempotent_and_clears :
    ∀ e : Expression,
      (e.MakeNop).MakeNop = e.MakeNop ∧
      (e.MakeNop).IsArithmeticExpression = false ∧
      (e.MakeNop).HasValidLhs = false ∧
      ∀ x : ExpressionId, (e.MakeNop).DirectlyDependsOn x = false := by
  intro e
  exact ⟨rfl, rfl, rfl, fun x => rfl⟩

/-- C5: after a.Replace(b) the lhs id of a is unchanged while type, return
type, operand list, name and literal value equal b's; and a.Replace(a)
leaves a unchanged in every observable field. -/
theorem replace_preserves_lhs_and_copies_rest :
    ∀ a b : Expression,
      ((a.Replace b).lhs_id = a.lhs_id ∧
        (a.Replace b).type = b.type ∧
        (a.Replace b).return_type = b.return_type ∧
        (a.Replace b).arguments = b.arguments ∧
        (a.Replace b).name = b.name ∧
        (a.Replace b).value = b.value) ∧
      a.Replace a = a := by
  intro a b
  refine ⟨⟨rfl, rfl, rfl, rfl, rfl, rfl⟩, ?_⟩
  cases a
  rfl

/-- C6 (counterexample): the claimed equivalence of HasValidLhs and
IsArithmeticExpression fails on the factory output
CreateCompileTimeConstant(0): the node is arithmetic but the factory leaves
the lhs id unassigned (the owning graph assigns ids), so it has no valid
lhs. -/
theorem factory_lhs_iff_arithmetic_counterexample :
    ¬ ((Expression.CreateCompileTimeConstant 0).HasValidLhs = true ↔
      (Expression.CreateCompileTimeConstant 0).IsArithmeticExpression = true) := by
  decide

/-- C6 (amended): for every factory-produced expression, a valid lhs implies
the expression is arithmetic; the If, Else, EndIf and Comment factories
never produce a valid lhs.  The converse implication fails because every
factory except CreateAssignment leaves the lhs id as the invalid sentinel,
id assignment being the owning graph's job. -/
theorem factory_lhs_implies_arithmetic :
    (∀ c : FactoryCall,
      (FactoryCall.apply c).HasValidLhs = true →
      (FactoryCall.apply c).IsArithmeticExpression = true) ∧
    (∀ cond : ExpressionId, (Expression.CreateIf cond).HasValidLhs = false) ∧
    Expression.CreateElse.HasValidLhs = false ∧
    Expression.CreateEndIf.HasValidLhs = false ∧
    (∀ s : String, (Expression.CreateComment s).HasValidLhs = false) := by
  refine ⟨?_, fun _ => rfl, rfl, rfl, fun _ => rfl⟩
  intro c h
  cases c
  case assignment dst src => rfl
  all_goals exact Bool.noConfusion h

/-- Witness for C6 (amended): the implication applied at the factory call
CreateAssignment(3, 1), whose destination id 3 is a valid lhs. -/
theorem factory_lhs_implies_arithmetic_witness :
    (FactoryCall.apply (FactoryCall.assignment 3 1)).IsArithmeticExpression = true :=
  factory_lhs_implies_arithmetic.1 (FactoryCall.assignment 3 1) (by decide)

/-- C7: for every expression e and value k,
e.IsCompileTimeConstantAndEqualTo(k) is true if and only if e's type is
COMPILE_TIME_CONSTANT and e's stored literal value equals k exactly; in
particular CreateCompileTimeConstant(0) satisfies it for 0 but not for 1,
and an InputAssignment node satisfies it for no argument. -/
theorem compile_time_constant_equality_characterization :
    (∀ (e : Expression) (k : Rat),
      e.IsCompileTimeConstantAndEqualTo k = true ↔
        (e.type = ExpressionType.COMPILE_TIME_CONSTANT ∧ e.value = k)) ∧
    (Expression.CreateCompileTimeConstant 0).IsCompileTimeConstantAndEqualTo 0 = true ∧
    (Expression.CreateCompileTimeConstant 0).IsCompileTimeConstantAndEqualTo 1 = false ∧
    (∀ (name : String) (k : Rat),
      (Expression.CreateInputAssignment name).IsCompileTimeConstantAndEqualTo k
        = false) := by
  refine ⟨?_, by decide, by decide, fun name k => rfl⟩
  intro e k
  simp [Expression.IsCompileTimeConstantAndEqualTo]

/-- C8: for every properly nested sequence of If/Else/EndIf factory calls, a
stack tracked over the sequence — push on If, pop on EndIf — never pops an
empty stack and is empty at the end; the unbalanced sequence If, If, EndIf
ends with a non-empty stack and is invalid. -/
theorem control_markers_stack_balanced :
    (∀ s : List Expression, ProperlyNested s → runStack s [] = some []) ∧
    runStack [Expression.CreateIf 0, Expression.CreateIf 0,
      Expression.CreateEndIf] [] = some [Expression.CreateIf 0] ∧
    some [Expression.CreateIf 0] ≠ some ([] : List Expression) := by
  refine ⟨?_, rfl, by decide⟩
  intro s h
  exact h.runStack_eq []

/-- Witness for C8: the balance statement applied to the concrete properly
nested sequence If(0), EndIf. -/
theorem control_markers_stack_balanced_witness :
    runStack [Expression.CreateIf 0, Expression.CreateEndIf] [] = some [] :=
  control_markers_stack_balanced.1 _ (ProperlyNested.ifEnd 0 [] ProperlyNested.nil)

/-- C9: after e.set_lhs_id(n) the lhs id equals n while every other field is
unchanged; HasValidLhs is exactly the test lhs_id ≠ kInvalidExpressionId,
independent of the type — so set_lhs_id can make any node, including a
control marker or a Nop, report a valid lhs, and
set_lhs_id(kInvalidExpressionId) makes HasValidLhs false on any node. -/
theorem set_lhs_id_frame_and_hasValidLhs :
    (∀ (e : Expression) (n : ExpressionId),
      (e.set_lhs_id n).lhs_id = n ∧
      (e.set_lhs_id n).type = e.type ∧
      (e.set_lhs_id n).return_type = e.return_type ∧
      (e.set_lhs_id n).arguments = e.arguments ∧
      (e.set_lhs_id n).name = e.name ∧
      (e.set_lhs_id n).value = e.value ∧
      e.HasValidLhs = decide (e.lhs_id ≠ kInvalidExpressionId) ∧
      (e.set_lhs_id n).HasValidLhs = decide (n ≠ kInvalidExpressionId) ∧
      (e.set_lhs_id kInvalidExpressionId).HasValidLhs = false) ∧
    ((Expression.CreateIf 0).set_lhs_id 5).HasValidLhs = true ∧
    (Expression.defaultExpr.set_lhs_id 5).HasValidLhs = true := by
  exact ⟨fun e n => ⟨rfl, rfl, rfl, rfl, rfl, rfl, rfl, rfl, rfl⟩, by decide, by decide⟩

/-- C10: a default-constructed Expression is exactly the tombstone state:
type NOP, return type VOID, lhs id kInvalidExpressionId, empty operand list,
empty name, literal value 0; on it HasValidLhs, IsArithmeticExpression and
DirectlyDependsOn(x) for every x are false, and it is structurally equal
(operator==) to any other default-constructed Expression. -/
theorem default_expression_is_tombstone :
    Expression.defaultExpr.type = ExpressionType.NOP ∧
    Expression.defaultExpr.return_type = ExpressionReturnType.VOID ∧
    Expression.defaultExpr.lhs_id = kInvalidExpressionId ∧
    Expression.defaultExpr.arguments = [] ∧
    Expression.defaultExpr.name = "" ∧
    Expression.defaultExpr.value = 0 ∧
    Expression.defaultExpr.HasValidLhs = false ∧
    Expression.defaultExpr.IsArithmeticExpression = false ∧
    (∀ x : ExpressionId, Expression.defaultExpr.DirectlyDependsOn x = false) ∧
    Expression.opEq Expression.defaultExpr Expression.defaultExpr = true := by
  exact ⟨rfl, rfl, rfl, rfl, rfl, rfl, rfl, rfl, fun x => rfl, by decide⟩

end Ceres
